import Mathlib

/-!
Verification development for the `life-matters` backend
(`src/backend/index.js`): the traffic-signal proximity matching and zone
clustering engine together with its HTTP / socket call boundaries.

Coordinates are modelled as rationals (`ℚ`): the JavaScript source performs
no floating-point arithmetic at the boundaries under study, so exact
rationals are a faithful shallow embedding of the numeric payloads.
-/

/-- A geographic coordinate pair (latitude, longitude). -/
structure Coord where
  lat : ℚ
  lon : ℚ
  deriving DecidableEq, Repr

/-- A catalog record for one physical traffic signal: `{ id, location }`. -/
structure SignalRecord where
  id : String
  location : Coord
  deriving DecidableEq, Repr

/-- A zone produced by a clustering run: 1-based `index`, ordered `members`,
and the `centroid` (mean coordinate of the members). -/
structure Zone where
  index : Nat
  members : List SignalRecord
  centroid : Coord
  deriving DecidableEq, Repr

/-- A stored traffic-police registration record, as built at
`POST /api/traffic-police-register` (index.js lines 99-103): the resolved
zone object is embedded whole under the key `clusterZone`. -/
structure TrafficPoliceRecord where
  name : String
  phone : String
  clusterZone : Zone
  deriving DecidableEq, Repr

/-- The mutable process-wide state of index.js: `cachedClusters` (line 38),
`unfilteredClusters` (line 18), the `clusters` binding exported by the
clusters module (read at line 48), and the persisted registrations. -/
structure FullState where
  cachedClusters : List Zone
  unfilteredClusters : List Zone
  moduleClusters : List Zone
  registrations : List TrafficPoliceRecord
  deriving DecidableEq, Repr

/-- JavaScript truthiness test for an optional integer request field:
`!x` is true when the field is absent (undefined/null) or equal to `0`. -/
def intFieldFalsy : Option Int → Bool
  | none => true
  | some n => n == 0

/-- JavaScript truthiness test for an optional string request field:
`!x` is true when the field is absent or the empty string. -/
def strFieldFalsy : Option String → Bool
  | none => true
  | some s => s == ""

/-- JavaScript array subscript `l[i]` with an integer index: an element when
`0 ≤ i < l.length`, `undefined` (here `none`) otherwise. -/
def jsIndex (l : List Zone) (i : Int) : Option Zone :=
  if 0 ≤ i then l[i.toNat]? else none

/-- Request body of `POST /api/traffic-police-register`:
`{ cluster, name, phone }`, each field possibly absent. -/
structure RegisterBody where
  cluster : Option Int
  name : Option String
  phone : Option String
  deriving DecidableEq, Repr

/-- The distinguishable responses of `POST /api/traffic-police-register`:
400 "Missing required fields", 404 "Cluster with ID ... not found",
201 created (with the stored record echoed back). -/
inductive RegisterResponse
  | missingFields
  | clusterNotFound (zoneId : Int)
  | created (data : TrafficPoliceRecord)
  deriving DecidableEq, Repr

/-- Handler of `POST /api/traffic-police-register` (index.js lines 84-119):
falsy-field validation, 1-based lookup `unfilteredClusters[zoneId - 1]`,
undefined-check, then the record `{ name, phone, clusterZone }` is saved.
Returns the response together with the post-state. -/
def trafficPoliceRegister (s : FullState) (body : RegisterBody) :
    RegisterResponse × FullState :=
  if intFieldFalsy body.cluster || strFieldFalsy body.name || strFieldFalsy body.phone then
    (.missingFields, s)
  else
    let zoneId := body.cluster.getD 0
    match jsIndex s.unfilteredClusters (zoneId - 1) with
    | none => (.clusterNotFound zoneId, s)
    | some clusterZone =>
      let saved : TrafficPoliceRecord :=
        { name := body.name.getD "", phone := body.phone.getD "", clusterZone := clusterZone }
      (.created saved, { s with registrations := s.registrations ++ [saved] })

/-- The distinguishable responses of `GET /api/traffic-clusters`:
503 "Clusters are still being processed" or 200 with the cached list. -/
inductive ClustersResponse
  | processing
  | ok (zones : List Zone)
  deriving DecidableEq, Repr

/-- Handler of `GET /api/traffic-clusters` (index.js lines 77-82):
a 503 error whenever `cachedClusters` is empty, the cached list otherwise. -/
def trafficClusters (s : FullState) : ClustersResponse :=
  if s.cachedClusters.length = 0 then .processing else .ok s.cachedClusters

/-- One element of the stored `TrafficSignal` document's `elements` array,
as projected by `GET /api/traffic-signal`: `{ id, lat, lon }`. -/
structure SignalElement where
  id : Int
  lat : ℚ
  lon : ℚ
  deriving DecidableEq, Repr

/-- The distinguishable responses of `GET /api/traffic-signal`:
200 with the projected records or 404 "No traffic signal data found". -/
inductive SignalResponse
  | ok (results : List SignalElement)
  | noData
  deriving DecidableEq, Repr

/-- Handler of `GET /api/traffic-signal` (index.js lines 58-75), as a function
of `trafficSignal?.elements` (the stored document's elements, `none` when the
store has no usable document): every element is mapped to `{ id, lat, lon }`
unconditionally; no coordinate validation of any kind is performed. -/
def trafficSignalEndpoint : Option (List SignalElement) → SignalResponse
  | some elements => .ok (elements.map fun e => { id := e.id, lat := e.lat, lon := e.lon })
  | none => .noData

/-- GeoJSON-style geometry carried by a matched signal document:
`coordinates` is the pair (`coordinates[0]` = longitude,
`coordinates[1]` = latitude). -/
structure SignalGeometry where
  coordinates : ℚ × ℚ
  deriving DecidableEq, Repr

/-- The `trafficSignal` sub-document of a matcher result, with its geometry. -/
structure MatchedSignalDoc where
  geometry : SignalGeometry
  deriving DecidableEq, Repr

/-- Modelled from the spec: `findNearbyTrafficSignals`
(utils/trafficSignalMatcher.js) is not under src/. Per §3 a `MatchResult`
carries the signal, the `routeIndex` that triggered the match, and the
`distance` in meters; the handler (which is under src/) reads only
`signal.trafficSignal.geometry.coordinates`. -/
structure NearbySignal where
  trafficSignal : MatchedSignalDoc
  routeIndex : Nat
  distance : ℚ
  deriving DecidableEq, Repr

/-- The stripped coordinate pair emitted to the socket client. -/
structure LatLng where
  lat : ℚ
  lng : ℚ
  deriving DecidableEq, Repr

/-- Payloads emitted on the `traffic-signals-matches` socket event: either
the match list or the error object `{ message: ... }`. -/
inductive SocketEmit
  | matches (data : List LatLng)
  | errorMessage (msg : String)
  deriving DecidableEq, Repr

/-- Handler of the `request-traffic-signals` socket event (index.js lines
126-140), as a function of the matcher's outcome: on success each signal is
projected to `{ lat: coordinates[1], lng: coordinates[0] }` and the list is
emitted; when the matcher throws, the error object is emitted instead. -/
def requestTrafficSignalsHandler (result : Except String (List NearbySignal)) : SocketEmit :=
  match result with
  | .ok signals => .matches (signals.map fun s =>
      { lat := s.trafficSignal.geometry.coordinates.2
        lng := s.trafficSignal.geometry.coordinates.1 })
  | .error _ => .errorMessage "Error fetching traffic signals"

/-- Final state of `initializeClusters` (index.js lines 40-49), as a function
of the outcome of `await createClusters()`. Modelled from the spec for the
part of `createClusters` not under src/: on success the clusters module's
exported `clusters` binding holds the same zone sequence the call returned
(§4.5/§6: the zone index and the cached listing are built from the zones of
the same clustering run). On failure `cachedClusters` is left untouched
(the catch at lines 45-47) and line 48 still copies the module binding. -/
def initializeClusters (s : FullState) (outcome : Except String (List Zone)) : FullState :=
  match outcome with
  | .ok zs =>
    { s with moduleClusters := zs, cachedClusters := zs, unfilteredClusters := zs }
  | .error _ => { s with unfilteredClusters := s.moduleClusters }

/-- The sequence of states a concurrent reader can observe while one run of
`initializeClusters` is in progress, one entry per atomic event-loop step:
the state during the `await` (unchanged), the state after `createClusters`
has published its module binding, the state after the single wholesale
assignment `cachedClusters = ...` (line 43), and the state after
`unfilteredClusters = clusters` (line 48). On failure only the untouched
state and the final state (line 48 still runs) are observable. -/
def initTrace (s : FullState) (outcome : Except String (List Zone)) : List FullState :=
  match outcome with
  | .ok zs =>
    [s,
     { s with moduleClusters := zs },
     { s with moduleClusters := zs, cachedClusters := zs },
     { s with moduleClusters := zs, cachedClusters := zs, unfilteredClusters := zs }]
  | .error _ => [s, { s with unfilteredClusters := s.moduleClusters }]

/-!
Zone Clustering Engine, modelled from the spec: `createClusters`
(utils/trafficSignalClusters.js) is not under src/, so the algorithm of
spec §4.4 is embedded here. The great-circle distance function is taken as
a parameter `dist` (its haversine definition is transcendental and plays no
role in the claims about the clustering pipeline's structure).
-/

/-- Stable sort key of a catalog record (spec §4.4 step 1): latitude, then
longitude, then id — lexicographically. Because a `SignalRecord` consists of
exactly these fields, the key determines the record. -/
def keyRel (a b : SignalRecord) : Prop :=
  a.location.lat < b.location.lat ∨
    (a.location.lat = b.location.lat ∧
      (a.location.lon < b.location.lon ∨
        (a.location.lon = b.location.lon ∧ a.id ≤ b.id)))

instance : DecidableRel keyRel := fun a b => by
  unfold keyRel; infer_instance

instance : IsTotal SignalRecord keyRel := by
  constructor
  intro a b
  unfold keyRel
  rcases lt_trichotomy a.location.lat b.location.lat with h | h | h
  · exact Or.inl (Or.inl h)
  · rcases lt_trichotomy a.location.lon b.location.lon with h2 | h2 | h2
    · exact Or.inl (Or.inr ⟨h, Or.inl h2⟩)
    · rcases le_total a.id b.id with h3 | h3
      · exact Or.inl (Or.inr ⟨h, Or.inr ⟨h2, h3⟩⟩)
      · exact Or.inr (Or.inr ⟨h.symm, Or.inr ⟨h2.symm, h3⟩⟩)
    · exact Or.inr (Or.inr ⟨h.symm, Or.inl h2⟩)
  · exact Or.inr (Or.inl h)

instance : IsTrans SignalRecord keyRel := by
  constructor
  intro a b c hab hbc
  unfold keyRel at *
  rcases hab with h1 | ⟨e1, h1⟩
  · rcases hbc with h2 | ⟨e2, _⟩
    · exact Or.inl (h1.trans h2)
    · exact Or.inl (e2 ▸ h1)
  · rcases hbc with h2 | ⟨e2, h2⟩
    · exact Or.inl (e1 ▸ h2)
    · refine Or.inr ⟨e1.trans e2, ?_⟩
      rcases h1 with h1 | ⟨f1, h1⟩
      · rcases h2 with h2 | ⟨f2, _⟩
        · exact Or.inl (h1.trans h2)
        · exact Or.inl (f2 ▸ h1)
      · rcases h2 with h2 | ⟨f2, h2⟩
        · exact Or.inl (f1 ▸ h2)
        · exact Or.inr ⟨f1.trans f2, h1.trans h2⟩

instance : IsAntisymm SignalRecord keyRel := by
  constructor
  intro a b hab hba
  obtain ⟨aid, alat, alon⟩ := a
  obtain ⟨bid, blat, blon⟩ := b
  simp only [keyRel] at hab hba
  rcases hab with h1 | ⟨e1, h1⟩
  · rcases hba with h2 | ⟨e2, _⟩
    · exact absurd h2 (lt_asymm h1)
    · exact absurd (e2 ▸ h1) (lt_irrefl _)
  · rcases hba with h2 | ⟨e2, h2⟩
    · exact absurd (e1 ▸ h2) (lt_irrefl _)
    · rcases h1 with h1 | ⟨f1, h1⟩
      · rcases h2 with h2 | ⟨f2, _⟩
        · exact absurd h2 (lt_asymm h1)
        · exact absurd (f2 ▸ h1) (lt_irrefl _)
      · rcases h2 with h2 | ⟨f2, h2⟩
        · exact absurd (f1 ▸ h2) (lt_irrefl _)
        · simp [e1, f1, le_antisymm h1 h2]

/-- The catalog sorted by the stable key (spec §4.4 step 1), removing
input-order dependence. -/
def sortCatalog (c : List SignalRecord) : List SignalRecord :=
  c.insertionSort keyRel

/-- Mean coordinate of a list of members (spec §3, "Centroid"); the origin
for an empty list (never consulted: zones always carry at least one member). -/
def centroidOf (members : List SignalRecord) : Coord :=
  if members.length = 0 then ⟨0, 0⟩
  else
    ⟨(members.map fun m => m.location.lat).sum / (members.length : ℚ),
     (members.map fun m => m.location.lon).sum / (members.length : ℚ)⟩

/-- A zone under construction: its members together with its current
centroid. -/
structure ProtoZone where
  members : List SignalRecord
  centroid : Coord
  deriving DecidableEq, Repr

/-- Index of the nearest centroid to `p` (smallest `dist`), together with
that distance; the earliest zone wins ties (fixed tie-break rule, spec §4.4).
`none` only for an empty centroid list. -/
def nearestCentroidIdx (dist : Coord → Coord → ℚ) (p : Coord) :
    List Coord → Option (Nat × ℚ)
  | [] => none
  | c :: cs =>
    match nearestCentroidIdx dist p cs with
    | none => some (0, dist p c)
    | some (i, d) => if d < dist p c then some (i + 1, d) else some (0, dist p c)

/-- Append signal `s` to the members of the zone at position `i`,
recomputing that zone's centroid. -/
def addToZone (zones : List ProtoZone) (i : Nat) (s : SignalRecord) : List ProtoZone :=
  match zones[i]? with
  | none => zones
  | some z =>
    zones.set i { members := z.members ++ [s], centroid := centroidOf (z.members ++ [s]) }

/-- Greedy seeding (spec §4.4 step 2): scan the sorted signals; a signal
joins the nearest existing zone when its distance to that zone's current
centroid is at most `target`, and seeds a new zone otherwise. -/
def seedZones (dist : Coord → Coord → ℚ) (target : ℚ)
    (sorted : List SignalRecord) : List ProtoZone :=
  sorted.foldl
    (fun zones s =>
      match nearestCentroidIdx dist s.location (zones.map fun z => z.centroid) with
      | some (i, d) =>
        if d ≤ target then addToZone zones i s
        else zones ++ [{ members := [s], centroid := centroidOf [s] }]
      | none => zones ++ [{ members := [s], centroid := centroidOf [s] }])
    []

/-- Append signal `s` to the bucket at position `i` (identity when `i` is out
of range, which never happens for indices returned by
`nearestCentroidIdx`). -/
def bucketAdd (buckets : List (List SignalRecord)) (i : Nat) (s : SignalRecord) :
    List (List SignalRecord) :=
  match buckets[i]? with
  | none => buckets
  | some b => buckets.set i (b ++ [s])

/-- One relaxation pass (spec §4.4 steps 2-3 repeated as step 4): assign
every signal to the zone with the nearest current centroid (centroids fixed
during the pass), then recompute each zone's centroid from its new members,
dropping zones left empty. -/
def reassign (dist : Coord → Coord → ℚ) (sorted : List SignalRecord)
    (zones : List ProtoZone) : List ProtoZone :=
  let cents := zones.map fun z => z.centroid
  let buckets :=
    sorted.foldl
      (fun buckets s =>
        match nearestCentroidIdx dist s.location cents with
        | some (i, _) => bucketAdd buckets i s
        | none => buckets)
      (cents.map fun _ => ([] : List SignalRecord))
  (buckets.filter fun b => !b.isEmpty).map fun ms =>
    { members := ms, centroid := centroidOf ms }

/-- Bounded-iteration relaxation (spec §4.4 step 4): repeat `reassign` until
no signal changes zone membership or the iteration cap `fuel` is reached. -/
def relax (dist : Coord → Coord → ℚ) (sorted : List SignalRecord) :
    Nat → List ProtoZone → List ProtoZone
  | 0, zones => zones
  | Nat.succ fuel, zones =>
    let next := reassign dist sorted zones
    if next.map (fun z => z.members) = zones.map fun z => z.members then zones
    else relax dist sorted fuel next

/-- Final ordering of zones (spec §4.4 step 5): ascending centroid latitude,
then longitude. -/
def zoneRel (a b : ProtoZone) : Prop :=
  a.centroid.lat < b.centroid.lat ∨
    (a.centroid.lat = b.centroid.lat ∧ a.centroid.lon ≤ b.centroid.lon)

instance : DecidableRel zoneRel := fun a b => by
  unfold zoneRel; infer_instance

/-- Modelled from the spec: the Zone Clustering Engine
`cluster(catalog, targetRadiusMeters)` of §4.4
(utils/trafficSignalClusters.js is not under src/). Pipeline: sort the
catalog by the stable key, seed zones greedily, relax up to `maxIter`
passes, order the zones by centroid, and assign the 1-based indices. -/
def cluster (dist : Coord → Coord → ℚ) (catalog : List SignalRecord)
    (targetRadius : ℚ) (maxIter : Nat) : List Zone :=
  let sorted := sortCatalog catalog
  let seeded := seedZones dist targetRadius sorted
  let relaxed := relax dist sorted maxIter seeded
  let ordered := relaxed.insertionSort zoneRel
  ordered.mapIdx fun i z => { index := i + 1, members := z.members, centroid := z.centroid }

/-- Squared Euclidean distance on raw coordinates: a concrete executable
stand-in metric used by witnesses (the clustering theorems hold for every
metric parameter). -/
def distSq (p q : Coord) : ℚ :=
  (p.lat - q.lat) * (p.lat - q.lat) + (p.lon - q.lon) * (p.lon - q.lon)

/-! Helper lemmas and concrete states shared by the claim theorems. -/

/-- Sorting is insensitive to the input order of the catalog: permuted
catalogs sort to the same list, because the sort key determines the whole
record. -/
theorem sortCatalog_eq_of_perm {c₁ c₂ : List SignalRecord} (h : c₁.Perm c₂) :
    sortCatalog c₁ = sortCatalog c₂ :=
  List.eq_of_perm_of_sorted
    ((List.perm_insertionSort keyRel c₁).trans
      (h.trans (List.perm_insertionSort keyRel c₂).symm))
    (List.sorted_insertionSort keyRel c₁)
    (List.sorted_insertionSort keyRel c₂)

/-- A negative JavaScript array index reads `undefined`. -/
theorem jsIndex_neg (l : List Zone) (i : Int) (h : i < 0) : jsIndex l i = none := by
  unfold jsIndex
  rw [if_neg (by omega)]

/-- A JavaScript array index at or beyond the length reads `undefined`. -/
theorem jsIndex_too_big (l : List Zone) (i : Int) (h : (l.length : Int) ≤ i) :
    jsIndex l i = none := by
  unfold jsIndex
  split
  · exact List.getElem?_eq_none (by omega)
  · rfl

/-- An in-range JavaScript array index reads the corresponding element. -/
theorem jsIndex_in_range (l : List Zone) (i : Int) (h0 : 0 ≤ i)
    (h1 : i < (l.length : Int)) :
    ∃ z, jsIndex l i = some z ∧ l[i.toNat]? = some z := by
  unfold jsIndex
  rw [if_pos h0]
  have hi : i.toNat < l.length := by omega
  exact ⟨l[i.toNat], by rw [List.getElem?_eq_getElem hi], by rw [List.getElem?_eq_getElem hi]⟩

/-- A concrete zone used by witnesses. -/
def zoneA : Zone := ⟨1, [⟨"a", ⟨1, 2⟩⟩], ⟨1, 2⟩⟩

/-- A second concrete zone used by witnesses. -/
def zoneB : Zone := ⟨1, [⟨"b", ⟨3, 4⟩⟩], ⟨3, 4⟩⟩

/-- A concrete server state whose cluster lists hold exactly one zone. -/
def oneZoneState : FullState := ⟨[zoneA], [zoneA], [zoneA], []⟩

/-- A concrete server state with an empty cluster cache (the state after a
clustering run over an empty catalog, or before the first run finishes). -/
def emptyCacheState : FullState := ⟨[], [], [], []⟩

/-- C2 counterexample: with an empty cached cluster list the listing endpoint
answers the 503 "still being processed" error, not a successful empty list. -/
theorem trafficClustersEmptyIsError :
    trafficClusters emptyCacheState = .processing ∧
      trafficClusters emptyCacheState ≠ .ok [] := by
  decide

/-- C2 (amended): when the cached cluster list is empty — in particular when
clustering produced zero zones — `GET /api/traffic-clusters` returns the 503
"Clusters are still being processed" error and never a successful list. -/
theorem trafficClustersEmptyProcessing (s : FullState) (h : s.cachedClusters = []) :
    trafficClusters s = .processing ∧ ∀ zs, trafficClusters s ≠ .ok zs := by
  refine ⟨by simp [trafficClusters, h], fun zs => by simp [trafficClusters, h]⟩

/-- Witness for the amended C2 at the concrete empty-cache state. -/
theorem trafficClustersEmptyProcessing_witness :
    trafficClusters emptyCacheState = .processing ∧
      ∀ zs, trafficClusters emptyCacheState ≠ .ok zs :=
  trafficClustersEmptyProcessing emptyCacheState rfl

/-- C3: at the socket boundary a matcher failure is distinguishable from a
successful empty match: a throw emits the error payload, zero matches emit
the empty (successful) list, and the two payloads are never equal. -/
theorem socketFailureDistinguishable (msg : String) (signals : List NearbySignal) :
    requestTrafficSignalsHandler (.error msg) =
        .errorMessage "Error fetching traffic signals" ∧
      requestTrafficSignalsHandler (.ok []) = .matches [] ∧
      requestTrafficSignalsHandler (.ok signals) ≠
        requestTrafficSignalsHandler (.error msg) := by
  refine ⟨rfl, rfl, fun h => SocketEmit.noConfusion h⟩

/-- C4: the payload emitted for a successful match is the ordered sequence of
the matched signals' coordinates only — position `i` of the payload is
exactly the latitude/longitude pair of signal `i`, with the `routeIndex` and
`distance` fields stripped (the payload type carries nothing else). -/
theorem socketMatchPayloadCoordsOnly (signals : List NearbySignal) :
    ∃ data, requestTrafficSignalsHandler (.ok signals) = .matches data ∧
      data.length = signals.length ∧
      ∀ i : Nat, data[i]? = (signals[i]?).map fun s =>
        ({ lat := s.trafficSignal.geometry.coordinates.2,
           lng := s.trafficSignal.geometry.coordinates.1 } : LatLng) := by
  refine ⟨_, rfl, by simp, fun i => ?_⟩
  simp [List.getElem?_map]

/-- A concrete stored element whose latitude is far outside [-90, 90]. -/
def badElement : SignalElement := ⟨7, 999, 0⟩

/-- C5 counterexample: a record with latitude 999 (outside [-90, 90]) is
served back verbatim by `GET /api/traffic-signal` instead of being
rejected. -/
theorem trafficSignalNoRangeCheck :
    trafficSignalEndpoint (some [badElement]) = .ok [badElement] ∧
      (90 : ℚ) < badElement.lat := by
  decide

/-- C5 (amended): the endpoint performs no coordinate-range validation at
all: every stored record — in range or not — is projected to
`{ id, lat, lon }` and served, and no record (corrupt or otherwise) ever
causes the load to fail; the response is always a successful list containing
every record. -/
theorem trafficSignalServesAll (elements : List SignalElement) :
    ∃ results, trafficSignalEndpoint (some elements) = .ok results ∧
      results.length = elements.length ∧
      ∀ e ∈ elements,
        ({ id := e.id, lat := e.lat, lon := e.lon } : SignalElement) ∈ results := by
  refine ⟨_, rfl, by simp, fun e he => List.mem_map_of_mem _ he⟩

/-- Witness for the amended C5 at a one-element store holding the corrupt
record. -/
theorem trafficSignalServesAll_witness :
    ∃ results, trafficSignalEndpoint (some [badElement]) = .ok results ∧
      results.length = [badElement].length ∧
      ∀ e ∈ [badElement],
        ({ id := e.id, lat := e.lat, lon := e.lon } : SignalElement) ∈ results :=
  trafficSignalServesAll [badElement]

/-- C1 counterexample: with one zone in the catalog, looking up zone index 0
at the registration boundary is rejected by the falsy-field validation (400
"Missing required fields", since `!0` is true in JavaScript), not with the
404 NotFound response the claim requires. -/
theorem registerIndexZeroNotNotFound :
    (trafficPoliceRegister oneZoneState ⟨some 0, some "n", some "p"⟩).1 =
        .missingFields ∧
      (trafficPoliceRegister oneZoneState ⟨some 0, some "n", some "p"⟩).1 ≠
        .clusterNotFound 0 := by
  decide

/-- C1 (amended): for a well-formed registration (non-empty name and phone)
referencing zone index `n` over `N` zones: index 0 is rejected, but by the
missing-fields validation (JavaScript falsiness of 0), not with NotFound;
every other out-of-range index — negative or greater than `N` — fails with
NotFound; and every `n` with `1 ≤ n ≤ N` resolves to the nth zone. -/
theorem registerZoneLookupRanges (s : FullState) (n : Int) (nm ph : String)
    (hnm : nm ≠ "") (hph : ph ≠ "") :
    (n = 0 →
      (trafficPoliceRegister s ⟨some n, some nm, some ph⟩).1 = .missingFields) ∧
    (n < 0 ∨ (s.unfilteredClusters.length : Int) < n →
      (trafficPoliceRegister s ⟨some n, some nm, some ph⟩).1 = .clusterNotFound n) ∧
    (1 ≤ n → n ≤ (s.unfilteredClusters.length : Int) →
      ∃ z, s.unfilteredClusters[(n - 1).toNat]? = some z ∧
        (trafficPoliceRegister s ⟨some n, some nm, some ph⟩).1 =
          .created ⟨nm, ph, z⟩) := by
  have hnm' : strFieldFalsy (some nm) = false := by simp [strFieldFalsy, hnm]
  have hph' : strFieldFalsy (some ph) = false := by simp [strFieldFalsy, hph]
  refine ⟨?_, ?_, ?_⟩
  · intro h
    subst h
    simp [trafficPoliceRegister, intFieldFalsy]
  · intro h
    have hn0 : intFieldFalsy (some n) = false := by
      simp only [intFieldFalsy, beq_eq_false_iff_ne]
      omega
    have hnone : jsIndex s.unfilteredClusters (n - 1) = none := by
      rcases h with h | h
      · exact jsIndex_neg _ _ (by omega)
      · exact jsIndex_too_big _ _ (by omega)
    simp [trafficPoliceRegister, hn0, hnm', hph', hnone]
  · intro h1 h2
    have hn0 : intFieldFalsy (some n) = false := by
      simp only [intFieldFalsy, beq_eq_false_iff_ne]
      omega
    obtain ⟨z, hz, hz'⟩ := jsIndex_in_range s.unfilteredClusters (n - 1) (by omega) (by omega)
    refine ⟨z, hz', ?_⟩
    simp [trafficPoliceRegister, hn0, hnm', hph', hz]

/-- Witness for the amended C1: with one zone, index 2 (= N + 1) fails with
NotFound. -/
theorem registerZoneLookupRanges_witness :
    (trafficPoliceRegister oneZoneState ⟨some 2, some "n", some "p"⟩).1 =
      .clusterNotFound 2 :=
  (registerZoneLookupRanges oneZoneState 2 "n" "p" (by decide) (by decide)).2.1
    (Or.inr (by decide))

/-- C6: a registration request that fails the field validation (missing or
falsy zone index, name, or phone) or references a nonexistent zone leaves
the server state — in particular the stored registrations — unchanged. -/
theorem registerRejectedNoStore (s : FullState) (body : RegisterBody)
    (h : intFieldFalsy body.cluster = true ∨ strFieldFalsy body.name = true ∨
         strFieldFalsy body.phone = true ∨
         jsIndex s.unfilteredClusters (body.cluster.getD 0 - 1) = none) :
    (trafficPoliceRegister s body).2 = s ∧
      (trafficPoliceRegister s body).2.registrations = s.registrations := by
  have main : (trafficPoliceRegister s body).2 = s := by
    unfold trafficPoliceRegister
    rcases h with h | h | h | h
    · simp [h]
    · simp [h]
    · simp [h]
    · by_cases hc :
        (intFieldFalsy body.cluster || strFieldFalsy body.name ||
          strFieldFalsy body.phone) = true
      · simp [hc]
      · simp [hc, h]
  exact ⟨main, by rw [main]⟩

/-- Witness for C6 at a request with a missing zone index. -/
theorem registerRejectedNoStore_witness :
    (trafficPoliceRegister oneZoneState ⟨none, some "n", some "p"⟩).2 =
        oneZoneState ∧
      (trafficPoliceRegister oneZoneState ⟨none, some "n", some "p"⟩).2.registrations =
        oneZoneState.registrations :=
  registerRejectedNoStore oneZoneState ⟨none, some "n", some "p"⟩ (Or.inl (by decide))

/-- C10: a successful registration stores the record
`{ name, phone, clusterZone }` in which the entire resolved zone object —
members included — is embedded under `clusterZone`; the numeric index `n`
itself is not what is persisted. -/
theorem registerStoresWholeZone (s : FullState) (n : Int) (nm ph : String) (z : Zone)
    (hnm : nm ≠ "") (hph : ph ≠ "") (hn : n ≠ 0)
    (hz : jsIndex s.unfilteredClusters (n - 1) = some z) :
    trafficPoliceRegister s ⟨some n, some nm, some ph⟩ =
        (.created ⟨nm, ph, z⟩,
         { s with registrations := s.registrations ++ [⟨nm, ph, z⟩] }) ∧
      (⟨nm, ph, z⟩ : TrafficPoliceRecord).clusterZone = z ∧
      (⟨nm, ph, z⟩ : TrafficPoliceRecord).clusterZone.members = z.members := by
  have hnm' : strFieldFalsy (some nm) = false := by simp [strFieldFalsy, hnm]
  have hph' : strFieldFalsy (some ph) = false := by simp [strFieldFalsy, hph]
  have hn0 : intFieldFalsy (some n) = false := by
    simp only [intFieldFalsy, beq_eq_false_iff_ne]
    omega
  refine ⟨?_, rfl, rfl⟩
  simp [trafficPoliceRegister, hn0, hnm', hph', hz]

/-- Witness for C10: registering against the single concrete zone embeds
that whole zone in the stored record. -/
theorem registerStoresWholeZone_witness :
    trafficPoliceRegister oneZoneState ⟨some 1, some "n", some "p"⟩ =
        (.created ⟨"n", "p", zoneA⟩,
         { oneZoneState with
            registrations := oneZoneState.registrations ++ [⟨"n", "p", zoneA⟩] }) ∧
      (⟨"n", "p", zoneA⟩ : TrafficPoliceRecord).clusterZone = zoneA ∧
      (⟨"n", "p", zoneA⟩ : TrafficPoliceRecord).clusterZone.members = zoneA.members :=
  registerStoresWholeZone oneZoneState 1 "n" "p" zoneA (by decide) (by decide)
    (by decide) (by decide)

/-- C7: at every observable step of a cluster recomputation, the listing's
backing list is either the previously published list or the fully built new
one — never anything in between — and the listing endpoint's response is
accordingly either its old response or its final one (the publication is the
single wholesale assignment at index.js line 43). -/
theorem listingNeverPartial (s : FullState) (outcome : Except String (List Zone))
    (t : FullState) (ht : t ∈ initTrace s outcome) :
    (t.cachedClusters = s.cachedClusters ∨
      ∃ zs, outcome = .ok zs ∧ t.cachedClusters = zs) ∧
    (trafficClusters t = trafficClusters s ∨
      trafficClusters t = trafficClusters (initializeClusters s outcome)) := by
  cases outcome with
  | ok zs =>
    simp only [initTrace, List.mem_cons, List.not_mem_nil, or_false] at ht
    rcases ht with rfl | rfl | rfl | rfl
    · exact ⟨Or.inl rfl, Or.inl rfl⟩
    · exact ⟨Or.inl rfl, Or.inl rfl⟩
    · exact ⟨Or.inr ⟨zs, rfl, rfl⟩, Or.inr rfl⟩
    · exact ⟨Or.inr ⟨zs, rfl, rfl⟩, Or.inr rfl⟩
  | error e =>
    simp only [initTrace, List.mem_cons, List.not_mem_nil, or_false] at ht
    rcases ht with rfl | rfl
    · exact ⟨Or.inl rfl, Or.inl rfl⟩
    · exact ⟨Or.inl rfl, Or.inr rfl⟩

/-- The observable state between the wholesale swap of `cachedClusters` and
the copy into `unfilteredClusters`, for the concrete witness run. -/
def midInitState : FullState :=
  { oneZoneState with moduleClusters := [zoneB], cachedClusters := [zoneB] }

/-- Witness for C7 at the step of a concrete recomputation in which the new
list has just been published. -/
theorem listingNeverPartial_witness :
    (midInitState.cachedClusters = oneZoneState.cachedClusters ∨
      ∃ zs, (Except.ok [zoneB] : Except String (List Zone)) = .ok zs ∧
        midInitState.cachedClusters = zs) ∧
    (trafficClusters midInitState = trafficClusters oneZoneState ∨
      trafficClusters midInitState =
        trafficClusters (initializeClusters oneZoneState (.ok [zoneB]))) :=
  listingNeverPartial oneZoneState (.ok [zoneB]) midInitState (by decide)

/-- C8: clustering is deterministic — for every distance function, target
radius, and iteration cap, two runs on the same catalog snapshot (the same
records, in any order in which the snapshot may arrive) produce identical
zones: the same membership and the same 1-based indices. -/
theorem clusterDeterministic (dist : Coord → Coord → ℚ) (c₁ c₂ : List SignalRecord)
    (targetRadius : ℚ) (maxIter : Nat) (h : c₁.Perm c₂) :
    cluster dist c₁ targetRadius maxIter = cluster dist c₂ targetRadius maxIter := by
  unfold cluster
  rw [sortCatalog_eq_of_perm h]

/-- Witness for C8: the same two-signal catalog presented in both orders
clusters identically. -/
theorem clusterDeterministic_witness :
    cluster distSq [⟨"a", ⟨1, 2⟩⟩, ⟨"b", ⟨3, 4⟩⟩] 1 5 =
      cluster distSq [⟨"b", ⟨3, 4⟩⟩, ⟨"a", ⟨1, 2⟩⟩] 1 5 :=
  clusterDeterministic distSq _ _ 1 5
    (List.Perm.swap (⟨"b", ⟨3, 4⟩⟩ : SignalRecord) (⟨"a", ⟨1, 2⟩⟩ : SignalRecord) [])

/-- C9: once cluster initialization completes successfully, the zone list
used for registration lookups (`unfilteredClusters`) and the list served by
the listing endpoint (`cachedClusters`) are the same sequence, so for every
in-range 1-based index `n` the registration lookup resolves exactly the nth
element of the served sequence. -/
theorem lookupMatchesListing (s : FullState) (zs : List Zone) (n : Nat)
    (h1 : 1 ≤ n) (h2 : n ≤ zs.length) :
    (initializeClusters s (.ok zs)).unfilteredClusters =
        (initializeClusters s (.ok zs)).cachedClusters ∧
      jsIndex (initializeClusters s (.ok zs)).unfilteredClusters ((n : Int) - 1) =
        (initializeClusters s (.ok zs)).cachedClusters[n - 1]? ∧
      ((initializeClusters s (.ok zs)).cachedClusters[n - 1]?).isSome = true := by
  refine ⟨rfl, ?_, ?_⟩
  · show jsIndex zs ((n : Int) - 1) = zs[n - 1]?
    unfold jsIndex
    rw [if_pos (by omega)]
    congr 1
    omega
  · show (zs[n - 1]?).isSome = true
    rw [List.getElem?_eq_getElem (by omega)]
    rfl

/-- Witness for C9 at a concrete initialization with one zone, index 1. -/
theorem lookupMatchesListing_witness :
    (initializeClusters oneZoneState (.ok [zoneB])).unfilteredClusters =
        (initializeClusters oneZoneState (.ok [zoneB])).cachedClusters ∧
      jsIndex (initializeClusters oneZoneState (.ok [zoneB])).unfilteredClusters
          ((1 : Int) - 1) =
        (initializeClusters oneZoneState (.ok [zoneB])).cachedClusters[1 - 1]? ∧
      ((initializeClusters oneZoneState (.ok [zoneB])).cachedClusters[1 - 1]?).isSome =
        true :=
  lookupMatchesListing oneZoneState [zoneB] 1 (by decide) (by decide)
